import Mathlib

/-!
Shallow embedding of `src/fan_cooling_control.ino`, an Arduino sketch that
drives an engine-cooling fan from a temperature reading.

Temperatures are C `float` values, modelled as rationals; PWM and pin values
are C integers, modelled as `ℤ`.  C's conversion of a nonnegative `float` to
`long` truncates toward zero, as does C's `long` division inside Arduino's
`map`; both are modelled explicitly below.
-/

namespace FanControl

/-- `TEMP_FAN_ON = 85.0`, the fan-on threshold in degrees Celsius. -/
def TEMP_FAN_ON : ℚ := 85

/-- `TEMP_FAN_MAX = 95.0`, the full-speed threshold in degrees Celsius. -/
def TEMP_FAN_MAX : ℚ := 95

/-- `TEMP_HYSTERESIS = 5.0`, the hysteresis width in degrees Celsius. -/
def TEMP_HYSTERESIS : ℚ := 5

/-- `PWM_MIN = 100`, the minimum fan drive (0-255 scale). -/
def PWM_MIN : ℤ := 100

/-- `PWM_MAX = 255`, the maximum fan drive (0-255 scale). -/
def PWM_MAX : ℤ := 255

/-- C conversion of a `float` to `long`: truncation toward zero. -/
def longOf (q : ℚ) : ℤ := if 0 ≤ q then ⌊q⌋ else -⌊-q⌋

/-- Arduino's `map(x, in_min, in_max, out_min, out_max)` over `long`
arithmetic; C `long` division truncates toward zero (`Int.tdiv`). -/
def map (x inMin inMax outMin outMax : ℤ) : ℤ :=
  Int.tdiv ((x - inMin) * (outMax - outMin)) (inMax - inMin) + outMin

/-- The machine state the sketch carries between ticks: the global
`fanActive` flag, the level last written to `FAN_RELAY_PIN`
(`true` = HIGH), and the value last written to `FAN_PWM_PIN`. -/
structure St where
  fanActive : Bool
  relayPin : Bool
  pwmPin : ℤ
deriving DecidableEq

/-- `controlFan(temp)`: one control tick.  Mirrors the four branches of the
source; branches that do not touch `fanActive` or the relay pin leave those
fields unchanged, and `analogWrite(FAN_PWM_PIN, pwmValue)` always runs, with
`pwmValue` still `0` when no branch assigned it. -/
def controlFan (temp : ℚ) (s : St) : St :=
  if temp ≥ TEMP_FAN_MAX then
    { fanActive := true, relayPin := true, pwmPin := PWM_MAX }
  else if temp ≥ TEMP_FAN_ON then
    let tempRange : ℚ := TEMP_FAN_MAX - TEMP_FAN_ON
    let tempDelta : ℚ := temp - TEMP_FAN_ON
    let pwmValue : ℤ :=
      map (longOf (tempDelta * 10)) 0 (longOf (tempRange * 10)) PWM_MIN PWM_MAX
    { fanActive := true, relayPin := true, pwmPin := pwmValue }
  else if temp < TEMP_FAN_ON - TEMP_HYSTERESIS then
    { fanActive := false, relayPin := false, pwmPin := 0 }
  else if s.fanActive then
    { fanActive := s.fanActive, relayPin := s.relayPin, pwmPin := PWM_MIN }
  else
    { fanActive := s.fanActive, relayPin := s.relayPin, pwmPin := 0 }

/-- The state right after `setup()`: `fanActive = false`,
`analogWrite(FAN_PWM_PIN, 0)`, `digitalWrite(FAN_RELAY_PIN, LOW)`. -/
def initState : St := { fanActive := false, relayPin := false, pwmPin := 0 }

/-- The state after running `controlFan` on each temperature of `ts` in
order, starting from `initState`. -/
def run (ts : List ℚ) : St := ts.foldl (fun s t => controlFan t s) initState

/-- A state is reachable when some sequence of ticks from `setup()`
produces it. -/
def Reachable (s : St) : Prop := ∃ ts : List ℚ, run ts = s

/-- The sequence of PWM drive values produced by feeding `ts` tick by tick
from state `s`. -/
def driveSeq : List ℚ → St → List ℤ
  | [], _ => []
  | t :: ts, s => (controlFan t s).pwmPin :: driveSeq ts (controlFan t s)

/-- Modelled from the spec: the exact linear interpolation
`drive = minDrive + (maxDrive - minDrive) * (temp - onThreshold) /
(maxThreshold - onThreshold)` over the reals, stated for comparison with
the scaled integer interpolation the code computes. -/
def specLinearDrive (temp : ℚ) : ℚ :=
  (PWM_MIN : ℚ) +
    ((PWM_MAX : ℚ) - (PWM_MIN : ℚ)) * (temp - TEMP_FAN_ON) /
      (TEMP_FAN_MAX - TEMP_FAN_ON)

/-! ### Band shape lemmas -/

lemma controlFan_max (t : ℚ) (s : St) (h : t ≥ TEMP_FAN_MAX) :
    controlFan t s = { fanActive := true, relayPin := true, pwmPin := PWM_MAX } := by
  simp [controlFan, h]

lemma controlFan_band (t : ℚ) (s : St) (h1 : t ≥ TEMP_FAN_ON) (h2 : ¬ t ≥ TEMP_FAN_MAX) :
    controlFan t s =
      { fanActive := true, relayPin := true,
        pwmPin := Int.tdiv (⌊(t - TEMP_FAN_ON) * 10⌋ * 155) 100 + PWM_MIN } := by
  have hd : (0 : ℚ) ≤ (t - TEMP_FAN_ON) * 10 := by
    have : TEMP_FAN_ON ≤ t := h1
    nlinarith
  have hfloor : ⌊((TEMP_FAN_MAX - TEMP_FAN_ON) * 10 : ℚ)⌋ = 100 := by
    rw [show ((TEMP_FAN_MAX - TEMP_FAN_ON) * 10 : ℚ) = ((100 : ℤ) : ℚ) by
      norm_num [TEMP_FAN_MAX, TEMP_FAN_ON]]
    exact Int.floor_intCast 100
  have hc : TEMP_FAN_ON ≤ TEMP_FAN_MAX := by norm_num [TEMP_FAN_MAX, TEMP_FAN_ON]
  simp only [controlFan, h2, if_false, ge_iff_le, h1, if_true]
  simp [map, longOf, hd, hfloor, hc, PWM_MAX, PWM_MIN]

lemma controlFan_low (t : ℚ) (s : St) (h : t < TEMP_FAN_ON - TEMP_HYSTERESIS) :
    controlFan t s = { fanActive := false, relayPin := false, pwmPin := 0 } := by
  have h1 : ¬ t ≥ TEMP_FAN_MAX := by
    norm_num [TEMP_FAN_MAX, TEMP_FAN_ON, TEMP_HYSTERESIS] at h ⊢
    linarith
  have h2 : ¬ t ≥ TEMP_FAN_ON := by
    norm_num [TEMP_FAN_ON, TEMP_HYSTERESIS] at h ⊢
    linarith
  simp [controlFan, h1, h2, h]

lemma controlFan_hyst (t : ℚ) (s : St) (h1 : ¬ t ≥ TEMP_FAN_ON)
    (h2 : ¬ t < TEMP_FAN_ON - TEMP_HYSTERESIS) :
    controlFan t s =
      if s.fanActive then
        { fanActive := s.fanActive, relayPin := s.relayPin, pwmPin := PWM_MIN }
      else
        { fanActive := s.fanActive, relayPin := s.relayPin, pwmPin := 0 } := by
  have h0 : ¬ t ≥ TEMP_FAN_MAX := by
    norm_num [TEMP_FAN_MAX, TEMP_FAN_ON] at h1 ⊢
    linarith
  simp [controlFan, h0, h1, h2]

/-! ### Arithmetic helpers for the interpolation band -/

lemma tdiv_floor_eq (n : ℤ) (hn : 0 ≤ n) :
    Int.tdiv (n * 155) 100 = ⌊((n : ℚ) * 155) / 100⌋ := by
  rw [Int.tdiv_eq_ediv (by positivity) (by norm_num)]
  rw [show ((n : ℚ) * 155) = (((n * 155 : ℤ)) : ℚ) by push_cast; ring,
    show ((100 : ℚ)) = ((100 : ℕ) : ℚ) by norm_num,
    Rat.floor_intCast_div_natCast]
  norm_num

lemma band_floor_nonneg (t : ℚ) (h1 : TEMP_FAN_ON ≤ t) :
    0 ≤ ⌊(t - TEMP_FAN_ON) * 10⌋ :=
  Int.floor_nonneg.mpr (by nlinarith)

lemma band_floor_le (t : ℚ) (h2 : t < TEMP_FAN_MAX) :
    ⌊(t - TEMP_FAN_ON) * 10⌋ ≤ 99 := by
  have : ⌊(t - TEMP_FAN_ON) * 10⌋ < 100 := by
    rw [Int.floor_lt]
    push_cast
    norm_num [TEMP_FAN_ON] at *
    norm_num [TEMP_FAN_MAX] at h2
    linarith
  omega

lemma band_pwm_bounds (t : ℚ) (h1 : TEMP_FAN_ON ≤ t) (h2 : t < TEMP_FAN_MAX) :
    0 ≤ Int.tdiv (⌊(t - TEMP_FAN_ON) * 10⌋ * 155) 100 ∧
      Int.tdiv (⌊(t - TEMP_FAN_ON) * 10⌋ * 155) 100 ≤ 153 := by
  have hn0 := band_floor_nonneg t h1
  have hn99 := band_floor_le t h2
  rw [Int.tdiv_eq_ediv (by positivity) (by norm_num)]
  constructor
  · exact Int.ediv_nonneg (by positivity) (by norm_num)
  · calc ⌊(t - TEMP_FAN_ON) * 10⌋ * 155 / 100 ≤ 99 * 155 / 100 :=
          Int.ediv_le_ediv (by norm_num) (by nlinarith)
      _ = 153 := by decide

lemma band_pwm_mono (t1 t2 : ℚ) (h1 : TEMP_FAN_ON ≤ t1) (h12 : t1 ≤ t2) :
    Int.tdiv (⌊(t1 - TEMP_FAN_ON) * 10⌋ * 155) 100 ≤
      Int.tdiv (⌊(t2 - TEMP_FAN_ON) * 10⌋ * 155) 100 := by
  have hn0 := band_floor_nonneg t1 h1
  have hn12 : ⌊(t1 - TEMP_FAN_ON) * 10⌋ ≤ ⌊(t2 - TEMP_FAN_ON) * 10⌋ :=
    Int.floor_le_floor (by nlinarith)
  rw [Int.tdiv_eq_ediv (by positivity) (by norm_num),
    Int.tdiv_eq_ediv (by nlinarith) (by norm_num)]
  exact Int.ediv_le_ediv (by norm_num) (by nlinarith)

/-! ### Relay-pin coupling invariant and determinism -/

lemma coupling_step (t : ℚ) (s : St) (hc : s.relayPin = s.fanActive) :
    (controlFan t s).relayPin = (controlFan t s).fanActive := by
  simp only [controlFan]
  split_ifs <;> simp [hc]

lemma foldl_coupling (ts : List ℚ) : ∀ s : St, s.relayPin = s.fanActive →
    ((ts.foldl (fun s t => controlFan t s) s).relayPin =
      (ts.foldl (fun s t => controlFan t s) s).fanActive) := by
  induction ts with
  | nil => intro s h; simpa using h
  | cons t ts ih =>
    intro s h
    simp only [List.foldl_cons]
    exact ih _ (coupling_step t s h)

lemma run_coupling (ts : List ℚ) : (run ts).relayPin = (run ts).fanActive :=
  foldl_coupling ts initState rfl

lemma reachable_coupling (s : St) (hs : Reachable s) : s.relayPin = s.fanActive := by
  rcases hs with ⟨ts, rfl⟩
  exact run_coupling ts

lemma controlFan_congr (t : ℚ) (s1 s2 : St)
    (hc1 : s1.relayPin = s1.fanActive) (hc2 : s2.relayPin = s2.fanActive)
    (hf : s1.fanActive = s2.fanActive) :
    controlFan t s1 = controlFan t s2 := by
  simp only [controlFan]
  split_ifs <;> simp_all

lemma fanActive_iff_aux (t : ℚ) (s : St) :
    ((controlFan t s).fanActive = true ↔ (controlFan t s).pwmPin ≠ 0) := by
  rcases le_or_lt TEMP_FAN_MAX t with h | h
  · rw [controlFan_max t s h]
    norm_num [PWM_MAX]
  · rcases le_or_lt TEMP_FAN_ON t with h1 | h1
    · rw [controlFan_band t s h1 (not_le.mpr h)]
      have hb := (band_pwm_bounds t h1 h).1
      simp only [ne_eq]
      constructor
      · intro _ hz
        rw [PWM_MIN] at hz
        omega
      · intro _
        trivial
    · rcases lt_or_le t (TEMP_FAN_ON - TEMP_HYSTERESIS) with h2 | h2
      · rw [controlFan_low t s h2]
        simp
      · rw [controlFan_hyst t s (not_le.mpr h1) (not_lt.mpr h2)]
        cases hfa : s.fanActive <;> simp [hfa, PWM_MIN]

/-! ### Claims -/

/-- Claim C1, counterexample: at `temp = 90` the code returns drive 177,
while the spec's exact linear interpolation gives 177.5, so the scaled
integer interpolation is not numerically equal to the floating-point
linear interpolation. -/
theorem interpolation_not_exact :
    ((controlFan 90 initState).pwmPin : ℚ) ≠ specLinearDrive 90 := by
  have h1 : (controlFan 90 initState).pwmPin = 177 := by
    norm_num [controlFan, TEMP_FAN_MAX, TEMP_FAN_ON, map, longOf, PWM_MIN,
      PWM_MAX, initState]
    decide
  have h2 : specLinearDrive 90 = 355 / 2 := by
    norm_num [specLinearDrive, TEMP_FAN_ON, TEMP_FAN_MAX, PWM_MIN, PWM_MAX]
  rw [h1, h2]
  norm_num

/-- Claim C1 (amended): for `onThreshold ≤ temp < maxThreshold` and any
prior state, the drive is the scaled integer interpolation
`tdiv (⌊(temp - onThreshold) * 10⌋ * (maxDrive - minDrive)) 100 + minDrive`
with relay on and `fanActive = true`; this value is within 3 units below
(and never above) the exact linear interpolation of the spec. -/
theorem interpolation_band_drive (t : ℚ) (s : St)
    (h1 : TEMP_FAN_ON ≤ t) (h2 : t < TEMP_FAN_MAX) :
    (controlFan t s).pwmPin =
        Int.tdiv (⌊(t - TEMP_FAN_ON) * 10⌋ * 155) 100 + PWM_MIN ∧
      (controlFan t s).relayPin = true ∧ (controlFan t s).fanActive = true ∧
      specLinearDrive t - 3 < ((controlFan t s).pwmPin : ℚ) ∧
      ((controlFan t s).pwmPin : ℚ) ≤ specLinearDrive t := by
  have hspec : specLinearDrive t = 100 + 155 * (t - 85) / 10 := by
    norm_num [specLinearDrive, TEMP_FAN_ON, TEMP_FAN_MAX, PWM_MIN, PWM_MAX]
  rw [controlFan_band t s h1 (not_le.mpr h2)]
  refine ⟨rfl, rfl, rfl, ?_, ?_⟩
  · show specLinearDrive t - 3 <
      ((Int.tdiv (⌊(t - TEMP_FAN_ON) * 10⌋ * 155) 100 + PWM_MIN : ℤ) : ℚ)
    rw [tdiv_floor_eq _ (band_floor_nonneg t h1), hspec]
    have hfl2 : (t - TEMP_FAN_ON) * 10 - 1 < ((⌊(t - TEMP_FAN_ON) * 10⌋ : ℤ) : ℚ) :=
      Int.sub_one_lt_floor _
    have hm2 : ((⌊(t - TEMP_FAN_ON) * 10⌋ : ℤ) : ℚ) * 155 / 100 - 1 <
        ((⌊((⌊(t - TEMP_FAN_ON) * 10⌋ : ℤ) : ℚ) * 155 / 100⌋ : ℤ) : ℚ) :=
      Int.sub_one_lt_floor _
    simp only [TEMP_FAN_ON, PWM_MIN] at hfl2 hm2 ⊢
    push_cast at hfl2 hm2 ⊢
    linarith
  · show ((Int.tdiv (⌊(t - TEMP_FAN_ON) * 10⌋ * 155) 100 + PWM_MIN : ℤ) : ℚ) ≤
      specLinearDrive t
    rw [tdiv_floor_eq _ (band_floor_nonneg t h1), hspec]
    have hfl : ((⌊(t - TEMP_FAN_ON) * 10⌋ : ℤ) : ℚ) ≤ (t - TEMP_FAN_ON) * 10 :=
      Int.floor_le _
    have hm1 : ((⌊((⌊(t - TEMP_FAN_ON) * 10⌋ : ℤ) : ℚ) * 155 / 100⌋ : ℤ) : ℚ) ≤
        ((⌊(t - TEMP_FAN_ON) * 10⌋ : ℤ) : ℚ) * 155 / 100 :=
      Int.floor_le _
    simp only [TEMP_FAN_ON, PWM_MIN] at hfl hm1 ⊢
    push_cast at hfl hm1 ⊢
    linarith

/-- Claim C1, witness: the amended interpolation statement instantiated at
`temp = 90` from the initial state. -/
theorem interpolation_band_drive_witness :
    TEMP_FAN_ON ≤ (90 : ℚ) ∧ (90 : ℚ) < TEMP_FAN_MAX ∧
      ((controlFan 90 initState).pwmPin : ℚ) ≤ specLinearDrive 90 :=
  ⟨by norm_num [TEMP_FAN_ON], by norm_num [TEMP_FAN_MAX],
    (interpolation_band_drive 90 initState (by norm_num [TEMP_FAN_ON])
      (by norm_num [TEMP_FAN_MAX])).2.2.2.2⟩

/-- Claim C2: in the hysteresis band `onThreshold - hysteresis ≤ temp <
onThreshold`, from any state whose relay pin matches `fanActive` (true of
every reachable state): if `fanActive` was true the drive holds at
`minDrive` with the relay unchanged and still on; if `fanActive` was false
the drive is 0 with the relay off and `fanActive` still false. -/
theorem hysteresis_band_hold (t : ℚ) (s : St)
    (h1 : TEMP_FAN_ON - TEMP_HYSTERESIS ≤ t) (h2 : t < TEMP_FAN_ON)
    (hc : s.relayPin = s.fanActive) :
    (s.fanActive = true →
      (controlFan t s).pwmPin = PWM_MIN ∧ (controlFan t s).relayPin = s.relayPin ∧
        (controlFan t s).relayPin = true ∧ (controlFan t s).fanActive = true) ∧
    (s.fanActive = false →
      (controlFan t s).pwmPin = 0 ∧ (controlFan t s).relayPin = s.relayPin ∧
        (controlFan t s).relayPin = false ∧ (controlFan t s).fanActive = false) := by
  rw [controlFan_hyst t s (not_le.mpr h2) (not_lt.mpr h1)]
  constructor
  · intro hfa
    simp [hfa, hc]
  · intro hfa
    simp [hfa, hc]

/-- Claim C2, witness: the hysteresis hold at `temp = 83` with the fan
already active. -/
theorem hysteresis_band_hold_witness :
    TEMP_FAN_ON - TEMP_HYSTERESIS ≤ (83 : ℚ) ∧ (83 : ℚ) < TEMP_FAN_ON ∧
      (controlFan 83 { fanActive := true, relayPin := true, pwmPin := 7 }).pwmPin
        = PWM_MIN :=
  ⟨by norm_num [TEMP_FAN_ON, TEMP_HYSTERESIS], by norm_num [TEMP_FAN_ON],
    ((hysteresis_band_hold 83 { fanActive := true, relayPin := true, pwmPin := 7 }
      (by norm_num [TEMP_FAN_ON, TEMP_HYSTERESIS]) (by norm_num [TEMP_FAN_ON])
      rfl).1 rfl).1⟩

/-- Claim C4: the drive written by `controlFan` is never negative, never
exceeds `PWM_MAX`, and always lies in `{0} ∪ [PWM_MIN, PWM_MAX]`, for every
temperature and every prior state. -/
theorem drive_always_in_range (t : ℚ) (s : St) :
    0 ≤ (controlFan t s).pwmPin ∧ (controlFan t s).pwmPin ≤ PWM_MAX ∧
      ((controlFan t s).pwmPin = 0 ∨
        (PWM_MIN ≤ (controlFan t s).pwmPin ∧ (controlFan t s).pwmPin ≤ PWM_MAX)) := by
  rcases le_or_lt TEMP_FAN_MAX t with h | h
  · rw [controlFan_max t s h]
    norm_num [PWM_MAX, PWM_MIN]
  · rcases le_or_lt TEMP_FAN_ON t with h1 | h1
    · rcases band_pwm_bounds t h1 h with ⟨hb0, hb1⟩
      have hp : (controlFan t s).pwmPin =
          Int.tdiv (⌊(t - TEMP_FAN_ON) * 10⌋ * 155) 100 + PWM_MIN := by
        rw [controlFan_band t s h1 (not_le.mpr h)]
      refine ⟨?_, ?_, Or.inr ⟨?_, ?_⟩⟩ <;>
        simp only [hp, PWM_MIN, PWM_MAX] <;> linarith
    · rcases lt_or_le t (TEMP_FAN_ON - TEMP_HYSTERESIS) with h2 | h2
      · rw [controlFan_low t s h2]
        norm_num [PWM_MAX, PWM_MIN]
      · rw [controlFan_hyst t s (not_le.mpr h1) (not_lt.mpr h2)]
        cases hfa : s.fanActive <;> norm_num [PWM_MIN, PWM_MAX]

/-- Claim C4, witness: the range bounds instantiated at `temp = 90` from
the initial state. -/
theorem drive_always_in_range_witness :
    0 ≤ (controlFan 90 initState).pwmPin ∧
      (controlFan 90 initState).pwmPin ≤ PWM_MAX :=
  ⟨(drive_always_in_range 90 initState).1,
    (drive_always_in_range 90 initState).2.1⟩

/-- Claim C7: at or above `maxThreshold` the fan runs at `PWM_MAX` with the
relay on and `fanActive` set, from any prior state. -/
theorem max_band_full_drive (t : ℚ) (s : St) (h : t ≥ TEMP_FAN_MAX) :
    (controlFan t s).pwmPin = PWM_MAX ∧ (controlFan t s).relayPin = true ∧
      (controlFan t s).fanActive = true := by
  rw [controlFan_max t s h]
  exact ⟨rfl, rfl, rfl⟩

/-- Claim C7, witness: instantiated at `temp = 96`. -/
theorem max_band_full_drive_witness :
    (96 : ℚ) ≥ TEMP_FAN_MAX ∧ (controlFan 96 initState).pwmPin = PWM_MAX :=
  ⟨by norm_num [TEMP_FAN_MAX],
    (max_band_full_drive 96 initState (by norm_num [TEMP_FAN_MAX])).1⟩

/-- Claim C8: below `onThreshold - hysteresis` the fan is fully off:
drive 0, relay off, `fanActive = false`, from any prior state. -/
theorem low_band_off (t : ℚ) (s : St) (h : t < TEMP_FAN_ON - TEMP_HYSTERESIS) :
    (controlFan t s).pwmPin = 0 ∧ (controlFan t s).relayPin = false ∧
      (controlFan t s).fanActive = false := by
  rw [controlFan_low t s h]
  exact ⟨rfl, rfl, rfl⟩

/-- Claim C8, witness: instantiated at `temp = 70` with the fan previously
running. -/
theorem low_band_off_witness :
    (70 : ℚ) < TEMP_FAN_ON - TEMP_HYSTERESIS ∧
      (controlFan 70 { fanActive := true, relayPin := true, pwmPin := 255 }).pwmPin
        = 0 :=
  ⟨by norm_num [TEMP_FAN_ON, TEMP_HYSTERESIS],
    (low_band_off 70 { fanActive := true, relayPin := true, pwmPin := 255 }
      (by norm_num [TEMP_FAN_ON, TEMP_HYSTERESIS])).1⟩

/-- Claim C3: after any call from a reachable state, `fanActive` is true
exactly when the drive just written is non-zero; and `fanActive` is the
only information carried between ticks, in that two reachable states with
equal `fanActive` produce identical results for every temperature. -/
theorem fanActive_iff_nonzero_drive (t : ℚ) (s : St) (hs : Reachable s) :
    ((controlFan t s).fanActive = true ↔ (controlFan t s).pwmPin ≠ 0) ∧
    (∀ s2 : St, Reachable s2 → s2.fanActive = s.fanActive →
      controlFan t s2 = controlFan t s) :=
  ⟨fanActive_iff_aux t s, fun s2 hs2 hf =>
    controlFan_congr t s2 s (reachable_coupling s2 hs2) (reachable_coupling s hs) hf⟩

/-- Claim C3, witness: instantiated at `temp = 90` from the initial state,
which is reachable by the empty tick sequence. -/
theorem fanActive_iff_nonzero_drive_witness :
    ((controlFan 90 initState).fanActive = true ↔
      (controlFan 90 initState).pwmPin ≠ 0) :=
  (fanActive_iff_nonzero_drive 90 initState ⟨[], rfl⟩).1

/-- Claim C5, counterexample: arbitrarily close below `maxThreshold` the
drive is 253, strictly below `PWM_MAX = 255`, so the drive does not tend
to `maxDrive` as the temperature approaches `maxThreshold` from below. -/
theorem band_drive_stuck_below_max :
    (controlFan (949 / 10) initState).pwmPin = 253 ∧
      (controlFan (9499 / 100) initState).pwmPin = 253 ∧ (253 : ℤ) < PWM_MAX := by
  refine ⟨?_, ?_, by decide⟩ <;>
  · norm_num [controlFan, TEMP_FAN_MAX, TEMP_FAN_ON, map, longOf, PWM_MIN,
      PWM_MAX, initState]
    decide

/-- Claim C5 (amended): on the interpolation band the drive is monotone
non-decreasing in the temperature, equals `PWM_MIN` at `onThreshold`, and
is bounded by 253 = `PWM_MIN + tdiv (99 * 155) 100`, which it attains for
all temperatures in `[maxThreshold - 1/10, maxThreshold)`; it approaches
253, not `PWM_MAX`, as the temperature tends to `maxThreshold` from
below. -/
theorem band_drive_monotone (t1 t2 : ℚ) (s1 s2 : St)
    (h1 : TEMP_FAN_ON ≤ t1) (h12 : t1 ≤ t2) (h2 : t2 < TEMP_FAN_MAX) :
    (controlFan t1 s1).pwmPin ≤ (controlFan t2 s2).pwmPin ∧
      (controlFan TEMP_FAN_ON s1).pwmPin = PWM_MIN ∧
      (controlFan t2 s2).pwmPin ≤ 253 ∧
      (TEMP_FAN_MAX - 1 / 10 ≤ t2 → (controlFan t2 s2).pwmPin = 253) := by
  have h1' : TEMP_FAN_ON ≤ t2 := le_trans h1 h12
  have e1 := controlFan_band t1 s1 h1 (not_le.mpr (lt_of_le_of_lt h12 h2))
  have e2 := controlFan_band t2 s2 h1' (not_le.mpr h2)
  refine ⟨?_, ?_, ?_, ?_⟩
  · rw [e1, e2]
    show Int.tdiv (⌊(t1 - TEMP_FAN_ON) * 10⌋ * 155) 100 + PWM_MIN ≤
      Int.tdiv (⌊(t2 - TEMP_FAN_ON) * 10⌋ * 155) 100 + PWM_MIN
    exact add_le_add_right (band_pwm_mono t1 t2 h1 h12) _
  · rw [controlFan_band TEMP_FAN_ON s1 le_rfl
      (by norm_num [TEMP_FAN_ON, TEMP_FAN_MAX])]
    show Int.tdiv (⌊(TEMP_FAN_ON - TEMP_FAN_ON) * 10⌋ * 155) 100 + PWM_MIN = PWM_MIN
    norm_num
  · rw [e2]
    show Int.tdiv (⌊(t2 - TEMP_FAN_ON) * 10⌋ * 155) 100 + PWM_MIN ≤ 253
    have hb := (band_pwm_bounds t2 h1' h2).2
    simp only [PWM_MIN]
    linarith
  · intro hlate
    have hn : ⌊(t2 - TEMP_FAN_ON) * 10⌋ = 99 := by
      rw [Int.floor_eq_iff]
      norm_num [TEMP_FAN_ON]
      norm_num [TEMP_FAN_MAX] at h2 hlate
      constructor <;> linarith
    rw [e2]
    show Int.tdiv (⌊(t2 - TEMP_FAN_ON) * 10⌋ * 155) 100 + PWM_MIN = 253
    rw [hn]
    decide

/-- Claim C5, witness: monotonicity and the 253 plateau instantiated at
`temp = 90` and `temp = 94.9`. -/
theorem band_drive_monotone_witness :
    TEMP_FAN_ON ≤ (90 : ℚ) ∧ (90 : ℚ) ≤ (949 / 10 : ℚ) ∧
      (949 / 10 : ℚ) < TEMP_FAN_MAX ∧
      (controlFan 90 initState).pwmPin ≤ (controlFan (949 / 10) initState).pwmPin ∧
      (controlFan (949 / 10) initState).pwmPin = 253 :=
  ⟨by norm_num [TEMP_FAN_ON], by norm_num, by norm_num [TEMP_FAN_MAX],
    (band_drive_monotone 90 (949 / 10) initState initState
      (by norm_num [TEMP_FAN_ON]) (by norm_num) (by norm_num [TEMP_FAN_MAX])).1,
    (band_drive_monotone 90 (949 / 10) initState initState
      (by norm_num [TEMP_FAN_ON]) (by norm_num) (by norm_num [TEMP_FAN_MAX])).2.2.2
      (by norm_num [TEMP_FAN_MAX])⟩

/-- Claim C6: with the sketch's thresholds, the temperature sequence
`[70, 90, 96, 83, 78]` fed from the initial state yields the drive
sequence `[0, 177, 255, 100, 0]`. -/
theorem scenario_drive_sequence :
    driveSeq [70, 90, 96, 83, 78] initState = [0, 177, 255, 100, 0] := by
  have s1 : controlFan (70 : ℚ) initState =
      { fanActive := false, relayPin := false, pwmPin := 0 } := by
    norm_num [controlFan, TEMP_FAN_MAX, TEMP_FAN_ON, TEMP_HYSTERESIS, initState]
  have s2 : controlFan (90 : ℚ)
      { fanActive := false, relayPin := false, pwmPin := 0 } =
      { fanActive := true, relayPin := true, pwmPin := 177 } := by
    norm_num [controlFan, TEMP_FAN_MAX, TEMP_FAN_ON, map, longOf, PWM_MIN,
      PWM_MAX]
    decide
  have s3 : controlFan (96 : ℚ)
      { fanActive := true, relayPin := true, pwmPin := 177 } =
      { fanActive := true, relayPin := true, pwmPin := 255 } := by
    norm_num [controlFan, TEMP_FAN_MAX, PWM_MAX]
  have s4 : controlFan (83 : ℚ)
      { fanActive := true, relayPin := true, pwmPin := 255 } =
      { fanActive := true, relayPin := true, pwmPin := 100 } := by
    norm_num [controlFan, TEMP_FAN_MAX, TEMP_FAN_ON, TEMP_HYSTERESIS, PWM_MIN]
  have s5 : controlFan (78 : ℚ)
      { fanActive := true, relayPin := true, pwmPin := 100 } =
      { fanActive := false, relayPin := false, pwmPin := 0 } := by
    norm_num [controlFan, TEMP_FAN_MAX, TEMP_FAN_ON, TEMP_HYSTERESIS]
  simp [driveSeq, s1, s2, s3, s4, s5]

/-- Claim C9, counterexample: two prior states with equal `fanActive` but
different relay-pin levels give different relay outputs at `temp = 83`
(the hysteresis band does not write the relay pin), so `controlFan` is not
deterministic in `temp` and `fanActive` alone regardless of the prior
relay-pin level. -/
theorem relay_carryover_cex :
    ({ fanActive := false, relayPin := true, pwmPin := 0 } : St).fanActive =
      ({ fanActive := false, relayPin := false, pwmPin := 0 } : St).fanActive ∧
    (controlFan 83 { fanActive := false, relayPin := true, pwmPin := 0 }).relayPin ≠
      (controlFan 83 { fanActive := false, relayPin := false, pwmPin := 0 }).relayPin := by
  refine ⟨rfl, ?_⟩
  have e1 : controlFan 83 { fanActive := false, relayPin := true, pwmPin := 0 } =
      { fanActive := false, relayPin := true, pwmPin := 0 } := by
    norm_num [controlFan, TEMP_FAN_MAX, TEMP_FAN_ON, TEMP_HYSTERESIS]
  have e2 : controlFan 83 { fanActive := false, relayPin := false, pwmPin := 0 } =
      { fanActive := false, relayPin := false, pwmPin := 0 } := by
    norm_num [controlFan, TEMP_FAN_MAX, TEMP_FAN_ON, TEMP_HYSTERESIS]
  rw [e1, e2]
  simp

/-- Claim C9 (amended): `controlFan` is deterministic given `temp` and
`fanActive` for all prior states whose relay pin agrees with `fanActive` —
which includes every reachable state; the prior PWM value never matters. -/
theorem update_deterministic (t : ℚ) (s1 s2 : St)
    (hc1 : s1.relayPin = s1.fanActive) (hc2 : s2.relayPin = s2.fanActive)
    (hf : s1.fanActive = s2.fanActive) :
    controlFan t s1 = controlFan t s2 :=
  controlFan_congr t s1 s2 hc1 hc2 hf

/-- Claim C9, witness: two coupled states that differ only in the prior
PWM value give identical results at `temp = 83`. -/
theorem update_deterministic_witness :
    controlFan 83 { fanActive := true, relayPin := true, pwmPin := 0 } =
      controlFan 83 { fanActive := true, relayPin := true, pwmPin := 7 } :=
  update_deterministic 83 { fanActive := true, relayPin := true, pwmPin := 0 }
    { fanActive := true, relayPin := true, pwmPin := 7 } rfl rfl rfl

/-- Claim C10: starting from the state `setup()` leaves (fan off, relay
LOW, PWM 0), after any sequence of `controlFan` calls the relay pin is
HIGH exactly when `fanActive` is true. -/
theorem relay_matches_fanActive (ts : List ℚ) :
    ((run ts).relayPin = true ↔ (run ts).fanActive = true) := by
  rw [run_coupling ts]

/-- Claim C10, witness: the relay coupling after the two-tick sequence
`[70, 90]`, whose second tick goes through the interpolation band. -/
theorem relay_matches_fanActive_witness :
    ((run [70, 90]).relayPin = true ↔ (run [70, 90]).fanActive = true) :=
  relay_matches_fanActive [70, 90]

end FanControl
